import Mathlib

/-!
Verification of the timemonitor session-reconciliation engine.

The definitions below are a shallow embedding of the TypeScript source:
* the `time_entries` SQLite table (`src/backend/src/database.ts`) is a lookup
  function from the primary key to an optional row;
* the inline SQL statements of the poll loop (`src/unnamed/part_007`,
  `startPolling` / `syncCacheFromDatabase`) and of the webhook handler
  (`src/unnamed/part_012`, `handleTimeTrackedUpdated`) become explicit row
  transformations;
* socket scoping (`src/backend/src/socket.ts`) and the bulk-import pagination
  loop (`src/backend/src/routes/earnings.ts`) are embedded directly;
* JavaScript runtime primitives (`Date` parsing/formatting, `parseInt`) are
  kept abstract as an environment record `JsEnv`, since their internals are
  library code, not repository code; all claims proved below hold for every
  interpretation of these primitives.
-/

namespace Timemonitor

/-- JavaScript truthiness of an optional string value: `null`/`undefined` and
the empty string are falsy. -/
def truthy : Option String → Bool
  | none => false
  | some s => !(s = "")

/-- JS `a || b` on an optional string with a string default (empty string is
falsy and falls through to the default). -/
def jsOr (a : Option String) (b : String) : String :=
  match a with
  | some s => if s = "" then b else s
  | none => b

/-- JS `a || null` on an optional string (an empty string collapses to null). -/
def jsOrNull (a : Option String) : Option String :=
  match a with
  | some s => if s = "" then none else some s
  | none => none

/-- Abstract interpretations of the JavaScript runtime primitives used by the
handlers.  `dateIso s` stands for `new Date(parseInt(s)).toISOString()`,
`parseIntOr0 s` for `parseInt(s) || 0`, `parseIntOpt s` for
`Number.parseInt(s, 10)` (`none` = NaN), and `parseStartTime` for the
`parseStartTime` helper of `src/unnamed/part_007` lines 130-145 (a `Date`
parse with a permissive fallback). -/
structure JsEnv where
  dateIso : String → String
  parseIntOr0 : String → Int
  parseIntOpt : String → Option Int
  parseStartTime : String → Int

/-- A concrete interpretation of the runtime primitives, used to evaluate the
model at concrete inputs. -/
def envId : JsEnv :=
  { dateIso := fun s => s
    parseIntOr0 := fun _ => 0
    parseIntOpt := fun _ => none
    parseStartTime := fun _ => 0 }

/-- One row of the `time_entries` table
(`src/backend/src/database.ts` lines 50-69); the primary key `id` is the key
of the surrounding table map.  `none` models SQL `NULL`. -/
structure Entry where
  task_id : String
  task_name : String
  user_id : String
  user_name : String
  user_email : Option String
  start_time : Option String
  end_time : Option String
  duration : Option Int
  billable : Int
  description : Option String
  task_url : Option String
  list_name : Option String
  folder_name : Option String
  space_name : Option String
  created_at : String
deriving Repr, DecidableEq

/-- The `time_entries` table: at most one row per `id` (PRIMARY KEY), modelled
as a lookup function. -/
def Table := String → Option Entry

/-- The empty table. -/
def emptyTable : Table := fun _ => none

/-- The poll loop's fallback stop write (`src/unnamed/part_007` lines 326-330):
`UPDATE time_entries SET end_time = ?, duration = ? WHERE id = ? AND
(end_time IS NULL OR end_time = '')`.  The row is modified only when the
guard holds; otherwise the statement is a no-op. -/
def pollMarkStopped (t : Table) (id : String) (endTime : String) (durationMs : Int) : Table :=
  fun k =>
    match t k with
    | none => none
    | some e =>
      if k = id ∧ (e.end_time = none ∨ e.end_time = some "") then
        some { e with end_time := some endTime, duration := some durationMs }
      else
        some e

/-- The poll loop's started upsert (`src/unnamed/part_007` lines 234-260):
`INSERT INTO time_entries (id, task_id, task_name, user_id, user_name,
user_email, start_time, task_url, list_name, folder_name, space_name)
VALUES (...) ON CONFLICT(id) DO UPDATE SET start_time, task_name, task_url,
list_name, folder_name, space_name`.  On insert, `end_time`, `duration`,
`description` default to NULL, `billable` to 0 and `created_at` to the
current timestamp (`createdAt`). -/
def pollInsertEntry (t : Table) (id task_id task_name user_id user_name user_email : String)
    (start_time task_url : String) (list_name folder_name space_name : Option String)
    (createdAt : String) : Table :=
  fun k =>
    if k = id then
      match t id with
      | none =>
        some { task_id := task_id, task_name := task_name, user_id := user_id
               user_name := user_name, user_email := some user_email
               start_time := some start_time, end_time := none, duration := none
               billable := 0, description := none, task_url := some task_url
               list_name := list_name, folder_name := folder_name
               space_name := space_name, created_at := createdAt }
      | some e =>
        some { e with start_time := some start_time, task_name := task_name
                      task_url := some task_url, list_name := list_name
                      folder_name := folder_name, space_name := space_name }
    else t k

/-- The webhook handler's insert upsert for a payload with no `before`
sub-record (`src/unnamed/part_012` lines 132-162): `INSERT INTO time_entries
(id, task_id, task_name, user_id, user_name, user_email, start_time,
end_time, duration, task_url, list_name, folder_name, space_name)
VALUES (...) ON CONFLICT(id) DO UPDATE SET start_time, end_time, duration,
task_name, task_url, list_name, folder_name, space_name` — the conflict
branch does not touch the user columns or `created_at`. -/
def pushInsertEntry (t : Table) (id task_id task_name user_id user_name user_email : String)
    (start_time : String) (end_time : Option String) (duration : Int) (task_url : String)
    (list_name folder_name space_name : Option String) (createdAt : String) : Table :=
  fun k =>
    if k = id then
      match t id with
      | none =>
        some { task_id := task_id, task_name := task_name, user_id := user_id
               user_name := user_name, user_email := some user_email
               start_time := some start_time, end_time := end_time
               duration := some duration, billable := 0, description := none
               task_url := some task_url, list_name := list_name
               folder_name := folder_name, space_name := space_name
               created_at := createdAt }
      | some e =>
        some { e with start_time := some start_time, end_time := end_time
                      duration := some duration, task_name := task_name
                      task_url := some task_url, list_name := list_name
                      folder_name := folder_name, space_name := space_name }
    else t k

/-- The webhook handler's update write for a payload with a `before`
sub-record (`src/unnamed/part_012` lines 219-225): `UPDATE time_entries SET
start_time = ?, end_time = ?, duration = ?, task_name = ?, task_url = ?,
list_name = ?, folder_name = ?, space_name = ? WHERE id = ?`.  Note: no
guard on the current `end_time` — an existing row is overwritten
unconditionally. -/
def pushUpdateEntry (t : Table) (id : String) (start_time : String) (end_time : Option String)
    (duration : Int) (task_name task_url : String)
    (list_name folder_name space_name : Option String) : Table :=
  fun k =>
    match t k with
    | none => none
    | some e =>
      if k = id then
        some { e with start_time := some start_time, end_time := end_time
                      duration := some duration, task_name := task_name
                      task_url := some task_url, list_name := list_name
                      folder_name := folder_name, space_name := space_name }
      else some e

/-- The `before`/`after` sub-record of a `taskTimeTrackedUpdated` history item
(`src/unnamed/part_012` lines 27-40): `{id, start, end, time}`.  `end_val`
models the `end` field (a Lean keyword); absent/undefined is `none`. -/
structure TimeEntryRec where
  id : String
  start : String
  end_val : Option String
  time : String
deriving Repr, DecidableEq

/-- The `user` sub-record of a history item. -/
structure HistoryUser where
  id : Int
  username : String
  email : String
  color : String
  profilePicture : Option String
deriving Repr, DecidableEq

/-- One history item of the webhook payload. -/
structure HistoryItem where
  user : HistoryUser
  before : Option TimeEntryRec
  after : Option TimeEntryRec
deriving Repr, DecidableEq

/-- The `taskTimeTrackedUpdated` webhook payload as consumed by
`handleTimeTrackedUpdated`. -/
structure WebhookPayload where
  task_id : String
  history_items : List HistoryItem
deriving Repr, DecidableEq

/-- The task metadata produced by `fetchAndStoreTask` (`src/unnamed/part_012`
lines 56-71): name and url are defaulted there, the location names come from
the fetched task.  It is an external fetch, so it is a parameter of the
handler. -/
structure TaskData where
  name : String
  url : String
  list_name : Option String
  folder_name : Option String
  space_name : Option String
deriving Repr, DecidableEq

/-- `timeEntry.end && timeEntry.end !== timeEntry.start`
(`src/unnamed/part_012` lines 125 and 210): the after-record is closed. -/
def hasEnd (a : TimeEntryRec) : Bool :=
  match a.end_val with
  | none => false
  | some e => !(e = "") && !(e = a.start)

/-- `!prevEntry.end || prevEntry.end === prevEntry.start`
(`src/unnamed/part_012` line 209): the before-record was still open. -/
def wasRunning (b : TimeEntryRec) : Bool :=
  match b.end_val with
  | none => true
  | some e => (e = "") || (e = b.start)

/-- `hasEnd ? new Date(parseInt(timeEntry.end)).toISOString() : null`
(`src/unnamed/part_012` line 126). -/
def branch1End (env : JsEnv) (a : TimeEntryRec) : Option String :=
  match a.end_val with
  | none => none
  | some e => if !(e = "") && !(e = a.start) then some (env.dateIso e) else none

/-- `timeEntry.end ? new Date(parseInt(timeEntry.end)).toISOString() : null`
(`src/unnamed/part_012` line 205). -/
def branch2End (env : JsEnv) (a : TimeEntryRec) : Option String :=
  match a.end_val with
  | none => none
  | some e => if e = "" then none else some (env.dateIso e)

/-- Tag of an emitted broadcaster event. -/
inductive EvKind where
  | started
  | stopped
  | updated
deriving Repr, DecidableEq

/-- An event handed to `emitScopedEvent`, reduced to the fields the claims
mention. -/
structure Emitted where
  kind : EvKind
  id : String
  user_id : String
  end_time : Option String
deriving Repr, DecidableEq

/-- The `before`-absent branch of `handleTimeTrackedUpdated`
(`src/unnamed/part_012` lines 123-200): upsert the entry, then emit
`Stopped` when the after-record is closed and `Started` otherwise. -/
def handleNewEntry (env : JsEnv) (taskName taskUrl : String)
    (listName folderName spaceName : Option String) (createdAt : String)
    (payloadTaskId : String) (u : HistoryUser) (a : TimeEntryRec) (t : Table) :
    Table × List Emitted :=
  let startTime := env.dateIso a.start
  let endTime := branch1End env a
  let duration := env.parseIntOr0 a.time
  let t1 := pushInsertEntry t a.id payloadTaskId taskName (toString u.id) u.username u.email
    startTime endTime duration taskUrl listName folderName spaceName createdAt
  if hasEnd a then
    (t1, [{ kind := .stopped, id := a.id, user_id := toString u.id, end_time := endTime }])
  else
    (t1, [{ kind := .started, id := a.id, user_id := toString u.id, end_time := none }])

/-- The `before`-present branch of `handleTimeTrackedUpdated`
(`src/unnamed/part_012` lines 202-257): unguarded update of the entry row,
then emit `Stopped` when the before-record was open and the after-record is
closed, `Updated` otherwise. -/
def handleExistingEntry (env : JsEnv) (taskName taskUrl : String)
    (listName folderName spaceName : Option String) (u : HistoryUser)
    (b a : TimeEntryRec) (t : Table) : Table × List Emitted :=
  let startTime := env.dateIso a.start
  let endTime := branch2End env a
  let duration := env.parseIntOr0 a.time
  let t1 := pushUpdateEntry t a.id startTime endTime duration taskName taskUrl
    listName folderName spaceName
  if wasRunning b && hasEnd a then
    (t1, [{ kind := .stopped, id := a.id, user_id := toString u.id, end_time := endTime }])
  else
    (t1, [{ kind := .updated, id := a.id, user_id := toString u.id, end_time := endTime }])

/-- Dispatch on the `after`/`before` sub-records of one history item
(`src/unnamed/part_012` lines 102-103, 123 and 203): the body of
`handleTimeTrackedUpdated` after the missing-history-item early return. -/
def handleHistoryItem (env : JsEnv) (task : TaskData) (createdAt : String)
    (payloadTaskId : String) (hi : HistoryItem) (t : Table) : Table × List Emitted :=
  match hi.after, hi.before with
  | some a, none =>
    handleNewEntry env task.name
      (jsOr (some task.url) ("https://app.clickup.com/t/" ++ payloadTaskId))
      (jsOrNull task.list_name) (jsOrNull task.folder_name) (jsOrNull task.space_name)
      createdAt payloadTaskId hi.user a t
  | some a, some b =>
    handleExistingEntry env task.name
      (jsOr (some task.url) ("https://app.clickup.com/t/" ++ payloadTaskId))
      (jsOrNull task.list_name) (jsOrNull task.folder_name) (jsOrNull task.space_name)
      hi.user b a t
  | none, _ => (t, [])

/-- `handleTimeTrackedUpdated` (`src/unnamed/part_012` lines 94-258) acting on
the `time_entries` table: takes the task metadata returned by
`fetchAndStoreTask` and the SQL `created_at` default as parameters, and
returns the updated table together with the list of events emitted.  The
`users`/`tasks` table writes (`upsertUser`, `upsertTask`) are outside the
`time_entries` table and are not modelled. -/
def handleTimeTrackedUpdated (env : JsEnv) (task : TaskData) (createdAt : String)
    (p : WebhookPayload) (t : Table) : Table × List Emitted :=
  match p.history_items.head? with
  | none => (t, [])
  | some hi => handleHistoryItem env task createdAt p.task_id hi t

/-- A cached active timer (`src/unnamed/part_007` lines 11-34): a
`RunningTimer` enriched with the denormalized location names. -/
structure CachedTimer where
  id : String
  task_id : String
  task_name : String
  task_url : String
  user_id : Int
  user_name : String
  user_email : String
  start : String
  duration : Int
  list_name : Option String
  folder_name : Option String
  space_name : Option String
deriving Repr, DecidableEq

/-- The Active Session Cache `activeTimers` (`src/unnamed/part_007` line 41),
an in-memory map keyed by session id. -/
def Cache := String → Option CachedTimer

/-- The empty cache — the initial value of `activeTimers`. -/
def emptyCache : Cache := fun _ => none

/-- `Map.set`. -/
def cacheSet (c : Cache) (id : String) (v : CachedTimer) : Cache :=
  fun k => if k = id then some v else c k

/-- `Map.delete`. -/
def cacheDelete (c : Cache) (id : String) : Cache :=
  fun k => if k = id then none else c k

/-- The full engine state: the durable `time_entries` table plus the
in-memory Active Session Cache. -/
structure EngineState where
  table : Table
  cache : Cache

/-- The push ingestion path acting on the full engine state: the webhook
module (`src/unnamed/part_012`) reads and writes only the database and emits
socket events; it contains no reference to `activeTimers`, so the cache
component is passed through unchanged. -/
def pushIngest (env : JsEnv) (task : TaskData) (createdAt : String) (p : WebhookPayload)
    (st : EngineState) : EngineState × List Emitted :=
  let r := handleTimeTrackedUpdated env task createdAt p st.table
  ({ table := r.1, cache := st.cache }, r.2)

/-- One row returned by the startup query `SELECT ... FROM time_entries WHERE
end_time IS NULL` — for the rebuild we model the whole table contents as a
row list and keep the filter explicit. -/
structure DbRow where
  id : String
  entry : Entry
deriving Repr, DecidableEq

/-- Conversion of a database row to a cache entry
(`src/unnamed/part_007` lines 169-194): `start` is the stringified parsed
start time, `duration` is `-1` (active timer). -/
def cachedOfRow (env : JsEnv) (r : DbRow) : CachedTimer :=
  { id := r.id
    task_id := r.entry.task_id
    task_name := r.entry.task_name
    task_url := r.entry.task_url.getD ""
    user_id := 0
    user_name := r.entry.user_name
    user_email := r.entry.user_email.getD ""
    start := toString (env.parseStartTime (r.entry.start_time.getD ""))
    duration := -1
    list_name := r.entry.list_name
    folder_name := r.entry.folder_name
    space_name := r.entry.space_name }

/-- `syncCacheFromDatabase` (`src/unnamed/part_007` lines 148-197): selects
the rows with `end_time IS NULL`, inserts each into `activeTimers`, and emits
nothing (the body only writes the cache and logs).  `rows` is the full table
contents at startup and `c0` the cache the entries are inserted into
(`activeTimers` is empty at process start).  Returns the rebuilt cache and
the list of broadcaster events emitted. -/
def syncCacheFromDatabase (env : JsEnv) (rows : List DbRow) (c0 : Cache) :
    Cache × List Emitted :=
  ((rows.filter (fun r => r.entry.end_time = none)).foldl
    (fun c r => cacheSet c r.id (cachedOfRow env r)) c0, [])

/-- A running timer as returned by the per-worker current-timer query
(`src/unnamed/part_007` lines 11-27). -/
structure RunningTimer where
  id : String
  task_id : String
  task_name : String
  task_url : String
  user_id : Int
  user_name : String
  user_email : String
  start : String
  duration : Int
deriving Repr, DecidableEq

/-- Task details returned by `fetchClickUpTask` for the poll path
(an external fetch, hence a parameter). -/
structure TaskDetails where
  name : Option String
  url : Option String
  list_name : Option String
  folder_name : Option String
  space_name : Option String
deriving Repr, DecidableEq

/-- The newly-detected-session branch of the poll loop
(`src/unnamed/part_007` lines 211-285) for one timer not present in the
cache: the store upsert runs first; `writeOk` models whether `stmt.run`
succeeds — when the write throws, the emit and the cache insertion that
follow it are skipped, so the cache is untouched. -/
def pollStartStep (env : JsEnv) (details : Option TaskDetails) (createdAt : String)
    (timer : RunningTimer) (st : EngineState) (writeOk : Bool) :
    EngineState × List Emitted :=
  let startTime := env.dateIso timer.start
  let taskName := jsOr (details.bind TaskDetails.name) timer.task_name
  let taskUrl := jsOr (details.bind TaskDetails.url)
    (jsOr (some timer.task_url) ("https://app.clickup.com/t/" ++ timer.task_id))
  let listName := jsOrNull (details.bind TaskDetails.list_name)
  let folderName := jsOrNull (details.bind TaskDetails.folder_name)
  let spaceName := jsOrNull (details.bind TaskDetails.space_name)
  if writeOk then
    let t1 := pollInsertEntry st.table timer.id timer.task_id taskName (toString timer.user_id)
      timer.user_name timer.user_email startTime taskUrl listName folderName spaceName createdAt
    let c1 := cacheSet st.cache timer.id
      { id := timer.id, task_id := timer.task_id, task_name := timer.task_name
        task_url := timer.task_url, user_id := timer.user_id, user_name := timer.user_name
        user_email := timer.user_email, start := timer.start, duration := timer.duration
        list_name := listName, folder_name := folderName, space_name := spaceName }
    ({ table := t1, cache := c1 },
      [{ kind := .started, id := timer.id, user_id := toString timer.user_id, end_time := none }])
  else
    (st, [])

/-- `MAX_ENTRY_DURATION_MS` (`src/unnamed/part_006` line 4): 12 hours in
milliseconds. -/
def MAX_ENTRY_DURATION_MS : Int := 12 * 60 * 60 * 1000

/-- The poll loop's fallback duration computation
(`src/unnamed/part_007` lines 319-323): `Number.isFinite(startMs) ?
Math.max(0, Date.now() - startMs) : 0`, then capped at
`MAX_ENTRY_DURATION_MS`. -/
def pollFallbackDuration (startMs : Option Int) (now : Int) : Int :=
  let d : Int :=
    match startMs with
    | some s => max 0 (now - s)
    | none => 0
  if d > MAX_ENTRY_DURATION_MS then MAX_ENTRY_DURATION_MS else d

/-- The raw (uncapped) poll fallback duration — the value of `durationMs` at
`src/unnamed/part_007` line 319 before the cap. -/
def pollRawDuration (startMs : Option Int) (now : Int) : Int :=
  match startMs with
  | some s => max 0 (now - s)
  | none => 0

/-- The disappeared-session branch of the poll loop
(`src/unnamed/part_007` lines 298-345) for one cache entry whose id is no
longer among the currently running timers: the cache entry is deleted FIRST
(line 300), then the guarded stop write runs.  `dbStart` models the
`SELECT start_time` fallback lookup, `writeOk` whether the `db.run` write
succeeds — a failed write throws after the delete, skipping the emit. -/
def pollStopStep (env : JsEnv) (id : String) (nowIso : String) (now : Int)
    (st : EngineState) (writeOk : Bool) : EngineState × List Emitted :=
  match st.cache id with
  | none => (st, [])
  | some timer =>
    let c1 := cacheDelete st.cache id
    let startMs0 := env.parseIntOpt timer.start
    let startMs :=
      match startMs0 with
      | some s => some s
      | none =>
        match st.table id with
        | some e =>
          match e.start_time with
          | some s => some (env.parseStartTime s)
          | none => startMs0
        | none => startMs0
    let durationMs := pollFallbackDuration startMs now
    if writeOk then
      ({ table := pollMarkStopped st.table id nowIso durationMs, cache := c1 },
        [{ kind := .stopped, id := id, user_id := toString timer.user_id
           end_time := some nowIso }])
    else
      ({ table := st.table, cache := c1 }, [])

/-- A connected socket's user data (`src/backend/src/socket.ts` lines 3-6). -/
structure SocketUser where
  role : Option String
  clickup_user_id : Option String
deriving Repr, DecidableEq

/-- `canViewAll` (`src/backend/src/socket.ts` lines 10-12). -/
def canViewAll (u : SocketUser) : Bool :=
  (u.role = some "admin") || (u.role = some "pm")

/-- A snapshot entry / event payload reduced to the field the scoping logic
reads (`user_id`, possibly absent). -/
structure SessionEntry where
  user_id : Option String
  sid : String
deriving Repr, DecidableEq

/-- The per-socket delivery decision of `emitScopedEvent`
(`src/backend/src/socket.ts` lines 38-50): unrestricted observers always
receive the event; a self-only observer receives it only when it has a
truthy bound identity equal to the payload's `user_id`. -/
def deliverScopedEvent (u : SocketUser) (payload : SessionEntry) : Bool :=
  if canViewAll u then true
  else
    truthy u.clickup_user_id && (payload.user_id = u.clickup_user_id)

/-- `sendActiveSessionsToSocket` (`src/backend/src/socket.ts` lines 14-30):
the list actually emitted to one socket — everything for an unrestricted
observer, the empty list for a self-only observer with no bound identity,
and the `user_id`-filtered list otherwise. -/
def sendActiveSessionsToSocket (u : SocketUser) (sessions : List SessionEntry) :
    List SessionEntry :=
  if canViewAll u then sessions
  else
    match u.clickup_user_id with
    | none => []
    | some uid =>
      if uid = "" then []
      else sessions.filter (fun s => s.user_id = some uid)

/-- `MAX_IMPORT_ENTRIES_PER_USER` (`src/unnamed/part_006` line 13). -/
def MAX_IMPORT_ENTRIES_PER_USER : Nat := 10000

/-- One raw entry of an import page, reduced to the fields the pagination
and skip logic read (`src/backend/src/routes/earnings.ts` lines 803-867). -/
structure PageEntry where
  id : Option String
deriving Repr, DecidableEq

/-- The duplicate-counting pass over one page
(`src/backend/src/routes/earnings.ts` lines 803-811): for each entry with a
truthy id, count it as a duplicate if already seen, else add it to the seen
set.  Returns the duplicate count and the grown seen set. -/
def countDupAdd (seen : List String) (entries : List PageEntry) : Nat × List String :=
  entries.foldl
    (fun acc e =>
      match e.id with
      | some eid =>
        if eid = "" then acc
        else if acc.2.contains eid then (acc.1 + 1, acc.2)
        else (acc.1, eid :: acc.2)
      | none => acc)
    (0, seen)

/-- The per-user import pagination loop
(`src/backend/src/routes/earnings.ts` lines 786-931), with explicit fuel:
each iteration fetches `pages page`, stops on an empty page, on a page more
than half of whose ids were already seen (`duplicates > entries.length / 2`,
i.e. `entries.length < 2 * duplicates`), after the fetched total reaches
`MAX_IMPORT_ENTRIES_PER_USER`, or on a partial page
(`entries.length < limit`); otherwise it recurses on the next page.
Returns `some totalFetched` when the loop exits by itself and `none` when
the fuel runs out first. -/
def importLoop (pages : Nat → List PageEntry) (limit : Int) :
    Nat → Nat → Nat → List String → Option Nat
  | 0, _, _, _ => none
  | fuel + 1, page, fetched, seen =>
    if (pages page).length = 0 then some fetched
    else if (pages page).length < 2 * (countDupAdd seen (pages page)).1 then some fetched
    else if MAX_IMPORT_ENTRIES_PER_USER ≤ fetched + (pages page).length then
      some (fetched + (pages page).length)
    else if ((pages page).length : Int) < limit then some (fetched + (pages page).length)
    else importLoop pages limit fuel (page + 1) (fetched + (pages page).length)
      (countDupAdd seen (pages page)).2

/-- The per-entry accept/skip decision of the import normalization
(`src/backend/src/routes/earnings.ts` lines 846-867 and 909): the entry is
skipped when a key field is falsy, and skipped — not capped — when its
reported duration exceeds `MAX_ENTRY_DURATION_MS`; otherwise the stored
duration is the reported value. -/
def importEntryDuration (entryId taskId userId : Option String) (durationValue : Int) :
    Option Int :=
  if !(truthy entryId) || !(truthy taskId) || !(truthy userId) then none
  else if durationValue > MAX_ENTRY_DURATION_MS then none
  else some durationValue

/-! ### Concrete fixtures used to evaluate the model at specific inputs -/

/-- A finalized (stopped) sample row. -/
def sampleEntryFinal : Entry :=
  { task_id := "t1", task_name := "old", user_id := "7", user_name := "w"
    user_email := some "w@x", start_time := some "2024-01-01T08:00:00.000Z"
    end_time := some "2024-01-01T09:00:00.000Z", duration := some 3600000
    billable := 0, description := none, task_url := some "u"
    list_name := none, folder_name := none, space_name := none
    created_at := "2024-01-01T08:00:00.000Z" }

/-- A still-open (active) sample row. -/
def sampleEntryOpen : Entry :=
  { sampleEntryFinal with end_time := none, duration := none }

/-- A table holding only the finalized sample row under id "s1". -/
def sampleTableFinal : Table :=
  fun k => if k = "s1" then some sampleEntryFinal else none

/-- A table holding only the open sample row under id "s1". -/
def sampleTableOpen : Table :=
  fun k => if k = "s1" then some sampleEntryOpen else none

/-- A sample cached timer for session "s1". -/
def sampleCached : CachedTimer :=
  { id := "s1", task_id := "t1", task_name := "old", task_url := "u"
    user_id := 7, user_name := "w", user_email := "w@x"
    start := "1704096000000", duration := -1
    list_name := none, folder_name := none, space_name := none }

/-- A cache holding only `sampleCached` under id "s1". -/
def sampleCache : Cache :=
  fun k => if k = "s1" then some sampleCached else none

/-- Sample task metadata for the webhook handler. -/
def sampleTask : TaskData :=
  { name := "old", url := "u", list_name := none, folder_name := none, space_name := none }

/-- A sample running timer for session "s1". -/
def sampleTimer : RunningTimer :=
  { id := "s1", task_id := "t1", task_name := "old", task_url := "u"
    user_id := 7, user_name := "w", user_email := "w@x", start := "100", duration := -1 }

/-- A sample webhook history user. -/
def sampleUser : HistoryUser :=
  { id := 7, username := "w", email := "w@x", color := "", profilePicture := none }

/-- A still-open before sub-record for session "s1" (`end` equals `start`). -/
def sampleBeforeOpen : TimeEntryRec :=
  { id := "s1", start := "100", end_val := some "100", time := "0" }

/-- A closed after sub-record for session "s1" (`end` distinct from
`start`). -/
def sampleAfterClosed : TimeEntryRec :=
  { id := "s1", start := "100", end_val := some "200", time := "100" }

/-- The history item of a stop transition: before open, after closed. -/
def sampleHistStop : HistoryItem :=
  { user := sampleUser, before := some sampleBeforeOpen, after := some sampleAfterClosed }

/-- A history item with a `before` record but no `after` record. -/
def sampleHistNoAfter : HistoryItem :=
  { user := sampleUser, before := some sampleBeforeOpen, after := none }

/-- A stop-transition webhook payload for session "s1". -/
def samplePayloadStop : WebhookPayload :=
  { task_id := "t1", history_items := [sampleHistStop] }

/-- A webhook payload whose history item has a `before` record but no
`after` record. -/
def samplePayloadNoAfter : WebhookPayload :=
  { task_id := "t1", history_items := [sampleHistNoAfter] }

/-! ## Theorems -/

/-- C3 counterexample: a 13-hour imported record (duration 46 800 000 ms,
above the 12-hour `MAX_ENTRY_DURATION_MS` = 43 200 000 ms) with all key
fields present is skipped by the import normalization — no row with the
capped duration is stored, refuting "the stored durationMs equals exactly
the maximum and the record is kept, never rejected or skipped". -/
theorem C3_counterexample :
    (13 * 60 * 60 * 1000 : Int) > MAX_ENTRY_DURATION_MS ∧
    importEntryDuration (some "e1") (some "t1") (some "u1") (13 * 60 * 60 * 1000) = none := by
  constructor
  · decide
  · rfl

/-- C3 (amended): the poll-computed fallback duration is capped at exactly
`MAX_ENTRY_DURATION_MS` when the raw value exceeds it, and the guarded stop
write keeps the row; but on the import path a record whose reported duration
exceeds the maximum is skipped entirely, never stored capped. -/
theorem C3_duration_policy (startMs : Option Int) (now : Int)
    (hraw : pollRawDuration startMs now > MAX_ENTRY_DURATION_MS)
    (t : Table) (id endTime : String) (d : Int)
    (eid tid uid : Option String) (dv : Int) (hdv : dv > MAX_ENTRY_DURATION_MS) :
    pollFallbackDuration startMs now = MAX_ENTRY_DURATION_MS
    ∧ ((pollMarkStopped t id endTime d) id).isSome = ((t id).isSome)
    ∧ importEntryDuration eid tid uid dv = none := by
  refine ⟨?_, ?_, ?_⟩
  · unfold pollFallbackDuration
    unfold pollRawDuration at hraw
    simp only [if_pos hraw]
  · unfold pollMarkStopped
    cases h : t id with
    | none => simp
    | some e =>
      show (if id = id ∧ (e.end_time = none ∨ e.end_time = some "") then
          some { e with end_time := some endTime, duration := some d } else some e).isSome
        = (some e).isSome
      split <;> rfl
  · unfold importEntryDuration
    by_cases hk : (!(truthy eid) || !(truthy tid) || !(truthy uid)) = true
    · simp [hk]
    · simp [hk, if_pos hdv]

/-- C3 witness: the amended theorem applied at a concrete 13-hour raw
duration. -/
theorem C3_duration_policy_witness :
    pollFallbackDuration (some 0) (13 * 60 * 60 * 1000) = MAX_ENTRY_DURATION_MS := by
  exact (C3_duration_policy (some 0) (13 * 60 * 60 * 1000) (by decide)
    emptyTable "s1" "2024-01-01T13:00:00.000Z" 0
    (some "e1") (some "t1") (some "u1") (13 * 60 * 60 * 1000) (by decide)).1

/-- C7: scoped delivery.  (1) a self-only observer bound to `uid` is
delivered an event only if its `user_id` equals `uid`; (2) an unrestricted
observer is delivered every event; (3) a self-only observer bound to `uid`
receives only snapshot entries whose `user_id` equals `uid`; (4) an
unrestricted observer receives the whole snapshot; (5) noninterference: the
snapshot a self-only observer receives depends only on the sub-list of
entries carrying its own identity. -/
theorem C7_scoped_delivery :
    (∀ u p, canViewAll u = false → ∀ uid, u.clickup_user_id = some uid →
      deliverScopedEvent u p = true → p.user_id = some uid)
    ∧ (∀ u p, canViewAll u = true → deliverScopedEvent u p = true)
    ∧ (∀ u uid sessions s, canViewAll u = false → u.clickup_user_id = some uid →
      s ∈ sendActiveSessionsToSocket u sessions → s.user_id = some uid)
    ∧ (∀ u sessions, canViewAll u = true → sendActiveSessionsToSocket u sessions = sessions)
    ∧ (∀ u s1 s2, canViewAll u = false →
      s1.filter (fun s => s.user_id = u.clickup_user_id)
        = s2.filter (fun s => s.user_id = u.clickup_user_id) →
      sendActiveSessionsToSocket u s1 = sendActiveSessionsToSocket u s2) := by
  refine ⟨?_, ?_, ?_, ?_, ?_⟩
  · intro u p h uid huid hd
    simp [deliverScopedEvent, h, huid, truthy] at hd
    exact hd.2
  · intro u p h
    simp [deliverScopedEvent, h]
  · intro u uid sessions s h huid hs
    simp [sendActiveSessionsToSocket, h, huid] at hs
    by_cases h0 : uid = ""
    · simp [h0] at hs
    · simp [h0, List.mem_filter] at hs
      exact hs.2
  · intro u sessions h
    simp [sendActiveSessionsToSocket, h]
  · intro u s1 s2 h hf
    unfold sendActiveSessionsToSocket
    rw [h]
    simp only [Bool.false_eq_true, if_false]
    cases huid : u.clickup_user_id with
    | none => rfl
    | some uid =>
      by_cases h0 : uid = ""
      · simp [h0]
      · simp only [if_neg h0]
        rw [huid] at hf
        exact hf

/-- C7 witness: the delivery facts applied to a concrete admin observer and
a concrete self-only observer bound to "u1". -/
theorem C7_scoped_delivery_witness :
    deliverScopedEvent ⟨some "admin", none⟩ ⟨some "u2", "s9"⟩ = true
    ∧ (⟨some "u1", "s3"⟩ : SessionEntry).user_id = some "u1" := by
  constructor
  · exact C7_scoped_delivery.2.1 ⟨some "admin", none⟩ ⟨some "u2", "s9"⟩ (by decide)
  · exact C7_scoped_delivery.1 ⟨some "user", some "u1"⟩ ⟨some "u1", "s3"⟩ (by decide)
      "u1" rfl (by decide)

/-- C10: the poll path's started-upsert conflict branch rewrites exactly
`start_time`, `task_name`, `task_url`, `list_name`, `folder_name` and
`space_name` of an existing row, leaving `end_time`, `duration`, the user
columns, `billable`, `description` and `created_at` as they were (so a
finalized row is never reopened), and leaves every other row of the table
untouched. -/
theorem C10_poll_upsert_frame (t : Table)
    (id task_id task_name user_id user_name user_email start_time task_url : String)
    (list_name folder_name space_name : Option String) (createdAt : String)
    (e0 : Entry) (h : t id = some e0) :
    (pollInsertEntry t id task_id task_name user_id user_name user_email start_time task_url
      list_name folder_name space_name createdAt) id =
      some { e0 with start_time := some start_time, task_name := task_name
                     task_url := some task_url, list_name := list_name
                     folder_name := folder_name, space_name := space_name }
    ∧ ∀ k, k ≠ id →
      (pollInsertEntry t id task_id task_name user_id user_name user_email start_time task_url
        list_name folder_name space_name createdAt) k = t k := by
  constructor
  · simp [pollInsertEntry, h]
  · intro k hk
    simp [pollInsertEntry, hk]

/-- C10 witness: the frame property applied to a concrete finalized row —
its `end_time` and `duration` survive the upsert. -/
theorem C10_poll_upsert_frame_witness :
    (pollInsertEntry sampleTableFinal
      "s1" "t1" "new" "7" "w" "w@x" "2024-01-02T10:00:00.000Z" "u2"
      (some "L") none none "2024-01-02T10:00:00.000Z") "s1" =
      some { sampleEntryFinal with
             task_name := "new", start_time := some "2024-01-02T10:00:00.000Z"
             task_url := some "u2", list_name := some "L" } := by
  exact (C10_poll_upsert_frame sampleTableFinal "s1" "t1" "new" "7" "w" "w@x"
    "2024-01-02T10:00:00.000Z" "u2" (some "L") none none "2024-01-02T10:00:00.000Z"
    sampleEntryFinal rfl).1

/-- Auxiliary: the import loop returns within the fuel as long as the fuel
covers the remaining entry budget — every non-terminating iteration fetches a
non-empty page, so the fetched total grows by at least one per page. -/
theorem importLoop_isSome_of_budget (pages : Nat → List PageEntry) (limit : Int) :
    ∀ fuel page fetched seen, fetched < MAX_IMPORT_ENTRIES_PER_USER →
      MAX_IMPORT_ENTRIES_PER_USER ≤ fetched + fuel →
      (importLoop pages limit fuel page fetched seen).isSome = true := by
  intro fuel
  induction fuel with
  | zero =>
    intro page fetched seen h1 h2
    exfalso
    omega
  | succ f ih =>
    intro page fetched seen h1 h2
    unfold importLoop
    by_cases he : (pages page).length = 0
    · simp [he]
    · simp only [if_neg he]
      by_cases hd : (pages page).length < 2 * (countDupAdd seen (pages page)).1
      · simp [hd]
      · simp only [if_neg hd]
        by_cases hm : MAX_IMPORT_ENTRIES_PER_USER ≤ fetched + (pages page).length
        · simp [hm]
        · simp only [if_neg hm]
          by_cases hl : ((pages page).length : Int) < limit
          · simp [hl]
          · simp only [if_neg hl]
            exact ih (page + 1) (fetched + (pages page).length)
              (countDupAdd seen (pages page)).2 (by omega) (by omega)

/-- C9: the per-user bulk-import pagination loop is bounded: running it with
a fuel of `MAX_IMPORT_ENTRIES_PER_USER` iterations always completes (never
exhausts the fuel), for every sequence of pages and every page limit; and
each of the claimed stop conditions stops it on the spot — an empty page, a
page more than half of whose ids were already seen, and the fetched total
reaching `MAX_IMPORT_ENTRIES_PER_USER`. -/
theorem C9_import_pagination_bounded (pages : Nat → List PageEntry) (limit : Int) :
    (importLoop pages limit MAX_IMPORT_ENTRIES_PER_USER 0 0 []).isSome = true
    ∧ (∀ fuel page fetched seen, (pages page).length = 0 →
        importLoop pages limit (fuel + 1) page fetched seen = some fetched)
    ∧ (∀ fuel page fetched seen, (pages page).length ≠ 0 →
        (pages page).length < 2 * (countDupAdd seen (pages page)).1 →
        importLoop pages limit (fuel + 1) page fetched seen = some fetched)
    ∧ (∀ fuel page fetched seen, (pages page).length ≠ 0 →
        ¬((pages page).length < 2 * (countDupAdd seen (pages page)).1) →
        MAX_IMPORT_ENTRIES_PER_USER ≤ fetched + (pages page).length →
        importLoop pages limit (fuel + 1) page fetched seen
          = some (fetched + (pages page).length)) := by
  refine ⟨?_, ?_, ?_, ?_⟩
  · exact importLoop_isSome_of_budget pages limit MAX_IMPORT_ENTRIES_PER_USER 0 0 []
      (by decide) (by omega)
  · intro fuel page fetched seen he
    unfold importLoop
    simp [he]
  · intro fuel page fetched seen he hd
    unfold importLoop
    simp [he, hd]
  · intro fuel page fetched seen he hd hm
    unfold importLoop
    simp [he, hd, hm]

/-- C9 witness: the bound and the empty-page stop applied to the page
sequence that is empty from the start. -/
theorem C9_import_pagination_bounded_witness :
    (importLoop (fun _ => ([] : List PageEntry)) 100 MAX_IMPORT_ENTRIES_PER_USER 0 0
      []).isSome = true
    ∧ importLoop (fun _ => ([] : List PageEntry)) 100 1 0 42 [] = some 42 :=
  ⟨(C9_import_pagination_bounded (fun _ => []) 100).1,
   (C9_import_pagination_bounded (fun _ => []) 100).2.1 0 0 42 [] rfl⟩

/-- Auxiliary: membership in the cache built by folding `cacheSet` over a row
list. -/
theorem foldl_cacheSet_isSome (env : JsEnv) (rs : List DbRow) :
    ∀ (c : Cache) (id : String),
      ((rs.foldl (fun c r => cacheSet c r.id (cachedOfRow env r)) c) id).isSome = true ↔
        ((∃ r ∈ rs, r.id = id) ∨ (c id).isSome = true) := by
  induction rs with
  | nil =>
    intro c id
    simp
  | cons r rs ih =>
    intro c id
    rw [List.foldl_cons, ih]
    constructor
    · rintro (⟨r', hr', hid⟩ | hc)
      · exact Or.inl ⟨r', List.mem_cons_of_mem r hr', hid⟩
      · unfold cacheSet at hc
        by_cases hk : id = r.id
        · exact Or.inl ⟨r, List.mem_cons_self r rs, hk.symm⟩
        · right
          simpa [hk] using hc
    · rintro (⟨r', hr', hid⟩ | hc)
      · rcases List.mem_cons.mp hr' with h | h
        · right
          subst h
          simp [cacheSet, hid.symm]

        · exact Or.inl ⟨r', h, hid⟩
      · by_cases hk : id = r.id
        · right
          simp [cacheSet, hk]
        · right
          simpa [cacheSet, hk] using hc

/-- Auxiliary: the cache rebuilt by `syncCacheFromDatabase` from an empty
cache contains exactly the ids of the rows with NULL `end_time`. -/
theorem syncCache_mem (env : JsEnv) (rows : List DbRow) (id : String) :
    (((syncCacheFromDatabase env rows emptyCache).1) id).isSome = true ↔
      ∃ r ∈ rows, r.id = id ∧ r.entry.end_time = none := by
  unfold syncCacheFromDatabase
  rw [foldl_cacheSet_isSome]
  simp only [emptyCache, Option.isSome_none, Bool.false_eq_true, or_false]
  constructor
  · rintro ⟨r, hr, hid⟩
    rw [List.mem_filter] at hr
    exact ⟨r, hr.1, hid, by simpa using hr.2⟩
  · rintro ⟨r, hr, hid, hend⟩
    exact ⟨r, List.mem_filter.mpr ⟨hr, by simpa using hend⟩, hid⟩

/-- C6: restart recovery — rebuilding the Active Session Cache at process
start from the store contents yields a cache whose keys are exactly the ids
of the rows with NULL `end_time` (no more, no fewer), and the rebuild emits
no events at all (in particular no `Started` events). -/
theorem C6_restart_recovery (env : JsEnv) (rows : List DbRow) :
    (∀ id, (((syncCacheFromDatabase env rows emptyCache).1) id).isSome = true ↔
      ∃ r ∈ rows, r.id = id ∧ r.entry.end_time = none)
    ∧ (syncCacheFromDatabase env rows emptyCache).2 = [] :=
  ⟨fun id => syncCache_mem env rows id, rfl⟩

/-- C6 witness: the rebuild applied to a two-row store — one open row "s1"
(recovered) and one finalized row — recovers exactly the open one and emits
nothing. -/
theorem C6_restart_recovery_witness :
    (((syncCacheFromDatabase envId
        [⟨"s1", sampleEntryOpen⟩, ⟨"s2", sampleEntryFinal⟩] emptyCache).1) "s1").isSome = true
    ∧ (syncCacheFromDatabase envId
        [⟨"s1", sampleEntryOpen⟩, ⟨"s2", sampleEntryFinal⟩] emptyCache).2 = [] :=
  ⟨((C6_restart_recovery envId [⟨"s1", sampleEntryOpen⟩, ⟨"s2", sampleEntryFinal⟩]).1
      "s1").mpr ⟨⟨"s1", sampleEntryOpen⟩, by simp, rfl, rfl⟩,
   (C6_restart_recovery envId [⟨"s1", sampleEntryOpen⟩, ⟨"s2", sampleEntryFinal⟩]).2⟩

/-- Auxiliary: re-running the webhook insert upsert with the same computed
values is a no-op — the second run hits the conflict branch and overwrites
every mutable field with the value it already has, leaving `created_at` (and
the user columns) untouched. -/
theorem pushInsertEntry_idem (t : Table)
    (id task_id task_name user_id user_name user_email start_time : String)
    (end_time : Option String) (duration : Int) (task_url : String)
    (list_name folder_name space_name : Option String) (c1 c2 : String) :
    pushInsertEntry
      (pushInsertEntry t id task_id task_name user_id user_name user_email start_time
        end_time duration task_url list_name folder_name space_name c1)
      id task_id task_name user_id user_name user_email start_time
      end_time duration task_url list_name folder_name space_name c2
    = pushInsertEntry t id task_id task_name user_id user_name user_email start_time
      end_time duration task_url list_name folder_name space_name c1 := by
  funext k
  unfold pushInsertEntry
  by_cases hk : k = id
  · simp only [hk, if_pos rfl]
    cases t id <;> rfl
  · simp [hk]

/-- Auxiliary: re-running the webhook update write with the same computed
values is a no-op. -/
theorem pushUpdateEntry_idem (t : Table) (id start_time : String) (end_time : Option String)
    (duration : Int) (task_name task_url : String)
    (list_name folder_name space_name : Option String) :
    pushUpdateEntry
      (pushUpdateEntry t id start_time end_time duration task_name task_url
        list_name folder_name space_name)
      id start_time end_time duration task_name task_url list_name folder_name space_name
    = pushUpdateEntry t id start_time end_time duration task_name task_url
      list_name folder_name space_name := by
  funext k
  unfold pushUpdateEntry
  cases h : t k with
  | none => rfl
  | some e =>
    by_cases hk : k = id
    · simp [hk]
    · simp [hk]

/-- Auxiliary: the `before`-absent branch is idempotent on the table (the
second run may carry a different `created_at` default `c2`; it is not
written on conflict). -/
theorem handleNewEntry_table_idem (env : JsEnv) (taskName taskUrl : String)
    (listName folderName spaceName : Option String) (c1 c2 : String)
    (payloadTaskId : String) (u : HistoryUser) (a : TimeEntryRec) (t : Table) :
    (handleNewEntry env taskName taskUrl listName folderName spaceName c2 payloadTaskId u a
      (handleNewEntry env taskName taskUrl listName folderName spaceName c1 payloadTaskId u a
        t).1).1
    = (handleNewEntry env taskName taskUrl listName folderName spaceName c1 payloadTaskId u a
        t).1 := by
  unfold handleNewEntry
  by_cases hE : hasEnd a = true
  · simp only [hE, if_true]
    exact pushInsertEntry_idem ..
  · simp only [Bool.not_eq_true] at hE
    simp only [hE, Bool.false_eq_true, if_false]
    exact pushInsertEntry_idem ..

/-- Auxiliary: the `before`-present branch is idempotent on the table. -/
theorem handleExistingEntry_table_idem (env : JsEnv) (taskName taskUrl : String)
    (listName folderName spaceName : Option String) (u : HistoryUser)
    (b a : TimeEntryRec) (t : Table) :
    (handleExistingEntry env taskName taskUrl listName folderName spaceName u b a
      (handleExistingEntry env taskName taskUrl listName folderName spaceName u b a t).1).1
    = (handleExistingEntry env taskName taskUrl listName folderName spaceName u b a t).1 := by
  unfold handleExistingEntry
  by_cases hW : (wasRunning b && hasEnd a) = true
  · simp only [hW, if_true]
    exact pushUpdateEntry_idem ..
  · simp only [Bool.not_eq_true] at hW
    simp only [hW, Bool.false_eq_true, if_false]
    exact pushUpdateEntry_idem ..

/-- Auxiliary: processing one history item twice against the table gives the
same table as processing it once. -/
theorem handleHistoryItem_table_idem (env : JsEnv) (task : TaskData) (c1 c2 : String)
    (ptid : String) (hi : HistoryItem) (t : Table) :
    (handleHistoryItem env task c2 ptid hi (handleHistoryItem env task c1 ptid hi t).1).1
      = (handleHistoryItem env task c1 ptid hi t).1 := by
  unfold handleHistoryItem
  cases ha : hi.after with
  | none => cases hb : hi.before <;> rfl
  | some a =>
    cases hb : hi.before with
    | none => exact handleNewEntry_table_idem ..
    | some b => exact handleExistingEntry_table_idem ..

/-- C4: delivering the same webhook payload to the push ingestion path twice
in a row leaves the `time_entries` table in the same state as delivering it
once — the second delivery overwrites the mutable fields with identical
values and leaves `created_at` untouched (the conflict branch does not set
it, so it keeps the value from the first delivery even if the second runs at
a different time `c2`). -/
theorem C4_webhook_idempotent (env : JsEnv) (task : TaskData) (c1 c2 : String)
    (p : WebhookPayload) (t : Table) :
    (handleTimeTrackedUpdated env task c2 p
      (handleTimeTrackedUpdated env task c1 p t).1).1
    = (handleTimeTrackedUpdated env task c1 p t).1 := by
  unfold handleTimeTrackedUpdated
  cases hh : p.history_items.head? with
  | none => rfl
  | some hi => exact handleHistoryItem_table_idem ..

/-- C5 counterexample: a payload whose history item has a `before` record but
no `after` record falls under the claim's residual case ("before present
otherwise ⇒ an Updated event emitted"), yet the handler emits no event at
all (and performs no store write). -/
theorem C5_counterexample :
    samplePayloadNoAfter.history_items.head? = some sampleHistNoAfter
    ∧ sampleHistNoAfter.before.isSome = true
    ∧ sampleHistNoAfter.after = none
    ∧ (handleTimeTrackedUpdated envId sampleTask "c" samplePayloadNoAfter sampleTableOpen).2
        = []
    ∧ (handleTimeTrackedUpdated envId sampleTask "c" samplePayloadNoAfter sampleTableOpen).1
        "s1" = some sampleEntryOpen := by
  refine ⟨rfl, rfl, rfl, rfl, rfl⟩

/-- C5 (amended): for every payload whose first history item carries an
`after` sub-record, the push path classifies it exactly as the claim states:
no `before` and `after` closed (`end` present, non-empty and distinct from
`start`) ⇒ persisted with a non-null `end_time` and one `Stopped` event; no
`before` and `after` still open ⇒ one `Started` event with null `end_time`;
`before` present, `before` open and `after` closed ⇒ one `Stopped` event;
`before` present otherwise ⇒ one `Updated` event.  A payload with no `after`
sub-record (or no history item) produces no event. -/
theorem C5_push_classification (env : JsEnv) (task : TaskData) (createdAt : String)
    (p : WebhookPayload) (t : Table) (hi : HistoryItem) (a : TimeEntryRec)
    (hhead : p.history_items.head? = some hi) (hafter : hi.after = some a) :
    (hi.before = none → hasEnd a = true →
      (handleTimeTrackedUpdated env task createdAt p t).2.map Emitted.kind = [.stopped]
      ∧ ((handleTimeTrackedUpdated env task createdAt p t).1 a.id).bind Entry.end_time
          = branch1End env a
      ∧ branch1End env a ≠ none)
    ∧ (hi.before = none → hasEnd a = false →
      (handleTimeTrackedUpdated env task createdAt p t).2.map Emitted.kind = [.started]
      ∧ (handleTimeTrackedUpdated env task createdAt p t).2.map Emitted.end_time = [none])
    ∧ (∀ b, hi.before = some b → wasRunning b = true → hasEnd a = true →
      (handleTimeTrackedUpdated env task createdAt p t).2.map Emitted.kind = [.stopped])
    ∧ (∀ b, hi.before = some b → (wasRunning b && hasEnd a) = false →
      (handleTimeTrackedUpdated env task createdAt p t).2.map Emitted.kind = [.updated]) := by
  have hmain : handleTimeTrackedUpdated env task createdAt p t
      = handleHistoryItem env task createdAt p.task_id hi t := by
    unfold handleTimeTrackedUpdated
    rw [hhead]
  refine ⟨?_, ?_, ?_, ?_⟩
  · intro hb hE
    rw [hmain]
    unfold handleHistoryItem
    rw [hafter, hb]
    unfold handleNewEntry
    simp only [hE, if_true]
    refine ⟨rfl, ?_, ?_⟩
    · unfold pushInsertEntry
      cases h : t a.id with
      | none => simp [h]
      | some e => simp [h]
    · unfold hasEnd at hE
      unfold branch1End
      cases he : a.end_val with
      | none => rw [he] at hE; exact absurd hE (by simp)
      | some e =>
        rw [he] at hE
        simp at hE
        simp [hE.1, hE.2]
  · intro hb hE
    rw [hmain]
    unfold handleHistoryItem
    rw [hafter, hb]
    unfold handleNewEntry
    simp only [hE, Bool.false_eq_true, if_false]
    exact ⟨rfl, rfl⟩
  · intro b hb hW hE
    rw [hmain]
    unfold handleHistoryItem
    rw [hafter, hb]
    unfold handleExistingEntry
    simp only [hW, hE, Bool.and_self, if_true]
    rfl
  · intro b hb hWE
    rw [hmain]
    unfold handleHistoryItem
    rw [hafter, hb]
    unfold handleExistingEntry
    simp only [hWE, Bool.false_eq_true, if_false]
    rfl

/-- C5 witness: the stop-transition case applied to the concrete
before-open/after-closed payload: exactly one `Stopped` event. -/
theorem C5_push_classification_witness :
    (handleTimeTrackedUpdated envId sampleTask "c" samplePayloadStop sampleTableOpen).2.map
      Emitted.kind = [.stopped] :=
  (C5_push_classification envId sampleTask "c" samplePayloadStop sampleTableOpen
    sampleHistStop sampleAfterClosed rfl rfl).2.2.1 sampleBeforeOpen rfl (by decide)
    (by decide)

/-- C1 counterexample: a stop transition processed by the push path against a
row that is already finalized (non-null `end_time`) does modify the row —
the push path's stop write (`UPDATE ... WHERE id = ?`,
`src/unnamed/part_012` lines 219-225) carries no "still null" guard, so the
late stop overwrites the finalized `end_time`/`duration` instead of being
a no-op. -/
theorem C1_counterexample :
    sampleTableFinal "s1" = some sampleEntryFinal
    ∧ sampleEntryFinal.end_time = some "2024-01-01T09:00:00.000Z"
    ∧ ((handleTimeTrackedUpdated envId sampleTask "c" samplePayloadStop sampleTableFinal).1
        "s1").bind Entry.end_time = some "200"
    ∧ (handleTimeTrackedUpdated envId sampleTask "c" samplePayloadStop sampleTableFinal).1
        "s1" ≠ sampleTableFinal "s1" := by
  refine ⟨rfl, rfl, rfl, ?_⟩
  decide

/-- C1 (amended): the poll path's stop write modifies the row only while its
`end_time` is still NULL (or the legacy empty string) and is a no-op on a
finalized row; the push path's stop write overwrites an existing row
unconditionally.  When both producers attempt to close the same session, the
final stored row is nevertheless the same in either order — the push write's
values win (the poll write is either overwritten or guarded out), provided
the push-written end time is a non-empty string. -/
theorem C1_stop_write_semantics :
    (∀ (t : Table) (id endTime : String) (d : Int) (e0 : Entry), t id = some e0 →
      ¬(e0.end_time = none ∨ e0.end_time = some "") →
      ∀ k, pollMarkStopped t id endTime d k = t k)
    ∧ (∀ (t : Table) (id st : String) (et : Option String) (d : Int) (tn tu : String)
        (ln fn sn : Option String) (e0 : Entry), t id = some e0 →
      pushUpdateEntry t id st et d tn tu ln fn sn id
        = some { e0 with start_time := some st, end_time := et, duration := some d
                         task_name := tn, task_url := some tu, list_name := ln
                         folder_name := fn, space_name := sn })
    ∧ (∀ (t : Table) (id st eps : String) (d : Int) (tn tu : String)
        (ln fn sn : Option String) (pollEnd : String) (pollDur : Int), eps ≠ "" →
      ∀ k,
        pushUpdateEntry (pollMarkStopped t id pollEnd pollDur) id st (some eps) d tn tu
          ln fn sn k
          = pushUpdateEntry t id st (some eps) d tn tu ln fn sn k
        ∧ pollMarkStopped (pushUpdateEntry t id st (some eps) d tn tu ln fn sn) id
            pollEnd pollDur k
          = pushUpdateEntry t id st (some eps) d tn tu ln fn sn k) := by
  refine ⟨?_, ?_, ?_⟩
  · intro t id endTime d e0 h hg k
    unfold pollMarkStopped
    cases hk : t k with
    | none => rfl
    | some e =>
      by_cases hki : k = id
      · subst hki
        rw [h] at hk
        cases hk
        simp [hg]
      · simp [hki]
  · intro t id st et d tn tu ln fn sn e0 h
    unfold pushUpdateEntry
    rw [h]
    simp
  · intro t id st eps d tn tu ln fn sn pollEnd pollDur heps k
    constructor
    · simp only [pushUpdateEntry, pollMarkStopped]
      cases hk : t k with
      | none => rfl
      | some e =>
        by_cases hki : k = id
        · by_cases hg : e.end_time = none ∨ e.end_time = some ""
          · simp [hki, hg]
          · simp [hki, hg]
        · simp [hki]
    · simp only [pushUpdateEntry, pollMarkStopped]
      cases hk : t k with
      | none => rfl
      | some e =>
        by_cases hki : k = id
        · simp [hki, heps]
        · simp [hki]

/-- C1 witness: the amended semantics at a concrete finalized row — the poll
stop write is a no-op, and the push stop write rewrites the row. -/
theorem C1_stop_write_semantics_witness :
    pollMarkStopped sampleTableFinal "s1" "E" (5 : Int) "s1" = sampleTableFinal "s1"
    ∧ pushUpdateEntry sampleTableFinal "s1" "S" (some "E") (7 : Int) "n" "u2"
        none none none "s1"
      = some { sampleEntryFinal with
               start_time := some "S", end_time := some "E"
               duration := some 7, task_name := "n", task_url := some "u2"
               list_name := none, folder_name := none, space_name := none } :=
  ⟨C1_stop_write_semantics.1 sampleTableFinal "s1" "E" 5 sampleEntryFinal rfl
      (by decide) "s1",
   C1_stop_write_semantics.2.1 sampleTableFinal "s1" "S" (some "E") 7 "n" "u2"
      none none none sampleEntryFinal rfl⟩

/-- C2 counterexample: a state in which the invariant initially holds —
session "s1" open in the store and present in the cache — is taken by a
push-processed stop transition to a state where the store row is finalized
(`end_time` non-null) while "s1" still sits in the Active Session Cache: the
push ingestion path never mutates the cache. -/
theorem C2_counterexample :
    sampleTableOpen "s1" = some sampleEntryOpen
    ∧ sampleEntryOpen.end_time = none
    ∧ (sampleCache "s1").isSome = true
    ∧ ((pushIngest envId sampleTask "c" samplePayloadStop
        { table := sampleTableOpen, cache := sampleCache }).1.table "s1").bind Entry.end_time
        = some "200"
    ∧ ((pushIngest envId sampleTask "c" samplePayloadStop
        { table := sampleTableOpen, cache := sampleCache }).1.cache "s1").isSome = true :=
  ⟨rfl, rfl, rfl, rfl, rfl⟩

/-- C2 (amended): the cache/store `endTime == null ⇔ cached` equivalence is
established by the startup rebuild (the rebuilt cache holds exactly the ids
of the NULL-`end_time` rows), but push ingestion leaves the Active Session
Cache completely unchanged, so after a push-processed transition the
equivalence can be violated until a later poll cycle reconciles the cache. -/
theorem C2_cache_store_consistency (env : JsEnv) (rows : List DbRow) :
    (∀ id, (((syncCacheFromDatabase env rows emptyCache).1) id).isSome = true ↔
      ∃ r ∈ rows, r.id = id ∧ r.entry.end_time = none)
    ∧ (∀ (task : TaskData) (createdAt : String) (p : WebhookPayload) (st : EngineState),
        (pushIngest env task createdAt p st).1.cache = st.cache) :=
  ⟨fun id => syncCache_mem env rows id, fun _ _ _ _ => rfl⟩

/-- C2 witness: the push path applied to the concrete consistent state keeps
the cache pointwise intact. -/
theorem C2_cache_store_consistency_witness :
    (pushIngest envId sampleTask "c" samplePayloadStop
      { table := sampleTableOpen, cache := sampleCache }).1.cache = sampleCache :=
  (C2_cache_store_consistency envId []).2 sampleTask "c" samplePayloadStop
    { table := sampleTableOpen, cache := sampleCache }

/-- C8 counterexample: on the poll path's stop branch the cache entry is
deleted before the store write (`activeTimers.delete(id)` at
`src/unnamed/part_007` line 300, the `db` write at lines 326-330), so when
the store write fails the cache has already been mutated: "s1" is gone from
the cache while the table is untouched. -/
theorem C8_counterexample :
    (sampleCache "s1").isSome = true
    ∧ (pollStopStep envId "s1" "E" 0
        { table := sampleTableOpen, cache := sampleCache } false).1.cache "s1" = none
    ∧ (pollStopStep envId "s1" "E" 0
        { table := sampleTableOpen, cache := sampleCache } false).1.table
        = sampleTableOpen :=
  ⟨rfl, rfl, rfl⟩

/-- C8 (amended): on the poll start path the cache is only inserted into
after a successful store write — a failed write leaves both cache and table
unchanged; on the poll stop path, however, the cache entry is removed before
the store write, so a failed stop write still removes the entry (the table
stays unchanged). -/
theorem C8_cache_write_order (env : JsEnv) (details : Option TaskDetails)
    (createdAt : String) (timer : RunningTimer) (st : EngineState)
    (id nowIso : String) (now : Int) :
    ((pollStartStep env details createdAt timer st false).1.cache = st.cache
      ∧ (pollStartStep env details createdAt timer st false).1.table = st.table)
    ∧ (∀ tm, st.cache id = some tm →
        (pollStopStep env id nowIso now st false).1.cache id = none
          ∧ (pollStopStep env id nowIso now st false).1.table = st.table) := by
  constructor
  · exact ⟨rfl, rfl⟩
  · intro tm htm
    unfold pollStopStep
    rw [htm]
    exact ⟨by simp [cacheDelete], rfl⟩

/-- C8 witness: the failed-write behaviors at the concrete state — start
leaves the cache as is, stop has already deleted "s1". -/
theorem C8_cache_write_order_witness :
    (pollStartStep envId none "c" sampleTimer
      { table := sampleTableOpen, cache := sampleCache } false).1.cache = sampleCache
    ∧ (pollStopStep envId "s1" "E" 5
      { table := sampleTableOpen, cache := sampleCache } false).1.cache "s1" = none :=
  ⟨(C8_cache_write_order envId none "c" sampleTimer
      { table := sampleTableOpen, cache := sampleCache } "s1" "E" 5).1.1,
   ((C8_cache_write_order envId none "c" sampleTimer
      { table := sampleTableOpen, cache := sampleCache } "s1" "E" 5).2 sampleCached rfl).1⟩

end Timemonitor
